import Mathlib

/-!
Verification development for the nomad-pack repository: a shallow
embedding of the `info` and `status` CLI commands (from
`internal/cli/info.go` and the status command source) and of the
variable resolution engine described in the specification, together
with theorems settling the specification's claims.
-/

set_option maxHeartbeats 1000000

namespace NomadPack

/-! ## cty values and types, as used by info.go

`info.go` consumes `github.com/zclconf/go-cty/cty` values: each variable
carries a `Type` (possibly `cty.NilType`) and a `Default` value
(possibly null).  We embed just the structure info.go inspects:
whether the declared type is nil, the friendly name of a type, whether
the default is null, and the runtime type of the default. -/

/-- A cty type as inspected by info.go: either `cty.NilType` or a
concrete type carrying a friendly name (info.go only ever calls
`Equals(cty.NilType)` and `FriendlyName()` on it). -/
inductive CtyType where
  | nil
  | string
  | number
  | bool
  | list (elem : CtyType)
  deriving DecidableEq, Repr

/-- `cty.Type.FriendlyName()` for the embedded types. -/
def CtyType.friendlyName : CtyType → String
  | .nil => "nil"
  | .string => "string"
  | .number => "number"
  | .bool => "bool"
  | .list t => "list of " ++ t.friendlyName

/-- A cty value as inspected by info.go: its runtime type and whether it
is the null value (`IsNull()`). -/
structure CtyValue where
  type : CtyType
  isNull : Bool
  deriving DecidableEq, Repr

/-- A parsed pack variable as consumed by `InfoCommand.Run`
(`parser.Variable`): name, declared type (NilType when absent),
default value (null when absent) and description. -/
structure Variable where
  name : String
  type : CtyType
  default : CtyValue
  description : String
  deriving DecidableEq, Repr

/-! ## info.go: variable type display and required/optional grouping -/

/-- The `varType` computation of `InfoCommand.Run` (info.go lines
99-106): start with "unknown"; if the declared type is not NilType use
its friendly name; otherwise, if the default is not null, use the
friendly name of the default's runtime type. -/
def varTypeString (v : Variable) : String :=
  if v.type ≠ CtyType.nil then
    v.type.friendlyName
  else if v.default.isNull = false then
    v.default.type.friendlyName
  else
    "unknown"

/-- The classification word printed by `InfoCommand.Run` (info.go lines
108-112): "required" when the default is null, "optional" otherwise. -/
def infoClassification (v : Variable) : String :=
  if v.default.isNull then "required" else "optional"

/-- Modelled from the spec: "A spec with no default is *required*" — a
variable is required exactly when it carries no default value (its
default is the null value). -/
def specRequired (v : Variable) : Bool :=
  v.default.isNull

/-- The row string appended for a required variable (info.go line 109). -/
def requiredRow (v : Variable) : String :=
  "\t- \"" ++ v.name ++ "\" (" ++ varTypeString v ++ ": required) - " ++ v.description

/-- The row string appended for an optional variable (info.go line 111). -/
def optionalRow (v : Variable) : String :=
  "\t- \"" ++ v.name ++ "\" (" ++ varTypeString v ++ ": optional) - " ++ v.description

/-- The loop of `InfoCommand.Run` over one pack's variables (info.go
lines 97-114): accumulate the `required` and `optional` string slices
in iteration order. -/
def collectRows (vars : List Variable) : List String × List String :=
  vars.foldl
    (fun acc v =>
      if v.default.isNull then
        (acc.1 ++ [requiredRow v], acc.2)
      else
        (acc.1, acc.2 ++ [optionalRow v]))
    ([], [])

/-- The rows printed for one pack, in order: `append(required,
optional...)` (info.go line 116). -/
def infoVariableRows (vars : List Variable) : List String :=
  (collectRows vars).1 ++ (collectRows vars).2

/-- Unfolding lemma for the fold of `collectRows`. -/
theorem collectRows_go (vars : List Variable) (a b : List String) :
    vars.foldl
      (fun acc v =>
        if v.default.isNull then
          (acc.1 ++ [requiredRow v], acc.2)
        else
          (acc.1, acc.2 ++ [optionalRow v]))
      (a, b)
    = (a ++ (vars.filter (fun v => v.default.isNull)).map requiredRow,
       b ++ (vars.filter (fun v => !v.default.isNull)).map optionalRow) := by
  induction vars generalizing a b with
  | nil => simp
  | cons v vs ih =>
    by_cases h : v.default.isNull <;> simp [h, ih]

/-- `collectRows` collects exactly the required variables (in iteration
order) on the left and the optional ones (in iteration order) on the
right. -/
theorem collectRows_eq (vars : List Variable) :
    collectRows vars
    = ((vars.filter (fun v => v.default.isNull)).map requiredRow,
       (vars.filter (fun v => !v.default.isNull)).map optionalRow) := by
  simpa using collectRows_go vars [] []

/-! ## The status command

Embedding of `validateStatusArgs` and
`StatusCommand.renderDeployedPackJobs` from the status command source.
The base command state carries the `--name` deployment flag value; the
deployed-job query `getDeployedPackJobs` is an external collaborator,
so its outcome is a parameter of the embedded function. -/

/-- The fields of `baseCommand` consulted by `validateStatusArgs`:
only the `--name` deployment flag. -/
structure BaseCommand where
  deploymentName : String
  deriving DecidableEq, Repr

/-- `validateStatusArgs` (status source lines 172-183): error when more
than one positional argument is supplied, error when the `--name` flag
is set but no pack name argument is given, success otherwise. -/
def validateStatusArgs (b : BaseCommand) (args : List String) : Except String Unit :=
  if args.length > 1 then
    .error ("this command accepts at most 1 arg, received " ++ toString args.length)
  else if b.deploymentName ≠ "" && args.length = 0 then
    .error "--name can only be used if pack name is provided"
  else
    .ok ()

/-- A deployed job row as rendered by the status command
(`JobStatusInfo`). -/
structure JobStatusInfo where
  packName : String
  registryName : String
  deploymentName : String
  jobID : String
  status : String
  deriving DecidableEq, Repr

/-- A job whose status lookup failed (`JobStatusError`); only the job id
and the error text are rendered. -/
structure JobStatusError where
  jobID : String
  jobError : String
  deriving DecidableEq, Repr

/-- A UI event emitted by the status command, in emission order. -/
inductive UIEvent where
  | errorWithContext (msg : String)
  | warning (msg : String)
  | warningBold (msg : String)
  | table (rows : List (List String))
  deriving DecidableEq, Repr

/-- The state of the status command consulted by
`renderDeployedPackJobs`: the pack name and the `--name` deployment
flag. -/
structure StatusState where
  packName : String
  deploymentName : String
  deriving DecidableEq, Repr

/-- `formatDeployedPackJobs` (status source lines 198-210): one table
row per job. -/
def formatDeployedPackJobs (packJobs : List JobStatusInfo) : List (List String) :=
  packJobs.map (fun j => [j.packName, j.registryName, j.deploymentName, j.jobID, j.status])

/-- `formatDeployedPackErrs` (status source lines 212-221): one table
row per failed job. -/
def formatDeployedPackErrs (packErrs : List JobStatusError) : List (List String) :=
  packErrs.map (fun j => [j.jobID, j.jobError])

/-- `StatusCommand.renderDeployedPackJobs` (status source lines 59-84).
The query outcome of `getDeployedPackJobs` is passed in: either an
error, or the pair of deployed jobs and per-job status errors.  Returns
the exit code and the UI events emitted. -/
def renderDeployedPackJobs (c : StatusState)
    (query : Except String (List JobStatusInfo × List JobStatusError)) :
    Int × List UIEvent :=
  match query with
  | .error _ => (1, [.errorWithContext "error retrieving jobs"])
  | .ok (packJobs, jobErrs) =>
    if packJobs.length = 0 then
      let msg := "no jobs found for pack \"" ++ c.packName ++ "\""
      let msg := if c.deploymentName ≠ "" then
          msg ++ " in deployment \"" ++ c.deploymentName ++ "\""
        else msg
      (0, [.warning msg])
    else
      let events := [UIEvent.table (formatDeployedPackJobs packJobs)]
      let events := if jobErrs.length > 0 then
          events ++ [.warningBold "error retrieving job status for the following jobs:",
                     .table (formatDeployedPackErrs jobErrs)]
        else events
      (0, events)

/-! ## Variable Resolution Engine

The engine itself (`internal/pkg/variable/parser`) is not among the
provided source files — only its caller in info.go is — so it is
modelled from the specification (§4.4, §4.5, §3), faithful to the
spec's words. -/

/-- Modelled from the spec: the closed set of variable values
("string, bool, number, ..."); the primitive fragment suffices for the
claims. -/
inductive Value where
  | str (s : String)
  | num (n : Int)
  | bool (b : Bool)
  deriving DecidableEq, Repr

/-- Modelled from the spec: structural value types with a
compatibility check. -/
inductive Ty where
  | str
  | num
  | bool
  deriving DecidableEq, Repr

/-- The runtime type of a value. -/
def Value.ty : Value → Ty
  | .str _ => .str
  | .num _ => .num
  | .bool _ => .bool

/-- Modelled from the spec: structural compatibility of an incoming
value's type with the governing type (an incompatible override is
discarded). -/
def compatible (governing incoming : Ty) : Bool :=
  governing == incoming

/-- Modelled from the spec: the kinds of VariableSource above the
pack-declared default, each carrying a precedence rank; "pack-declared
default < shared override file values < per-pack override file values
< environment-variable overrides < individual command-line
assignments". -/
inductive SourceKind where
  | sharedFile
  | perPackFile
  | envVar
  | cliAssignment
  deriving DecidableEq, Repr

/-- The precedence rank of a source kind (higher = applied later,
overwriting). The pack-declared default is rank 0 and is the starting
value rather than a list element. -/
def SourceKind.rank : SourceKind → Nat
  | .sharedFile => 1
  | .perPackFile => 2
  | .envVar => 3
  | .cliAssignment => 4

/-- Modelled from the spec: the target path of a VariableSource — a
pack-qualified name ("pack alias chain + variable name") or a bare
variable name "meaning apply to every pack that declares this
name". -/
inductive TargetPath where
  | bare (varName : String)
  | qualified (packAlias : String) (varName : String)
  deriving DecidableEq, Repr

/-- Modelled from the spec: a VariableSource — an origin of one
override assignment with its kind (hence precedence rank), target path
and value. -/
structure VariableSource where
  kind : SourceKind
  target : TargetPath
  value : Value
  deriving DecidableEq, Repr

/-- Modelled from the spec: a VariableSpec — `{name, declaredType
(optional), defaultValue (optional), owningPackAlias}` (the
description field plays no role in resolution). -/
structure VariableSpec where
  name : String
  owningPackAlias : String
  declaredType : Option Ty
  defaultValue : Option Value
  deriving DecidableEq, Repr

/-- Modelled from the spec: a diagnostic kind from the error taxonomy,
restricted to those the resolution engine emits. -/
inductive DiagKind where
  | typeMismatch
  | unknownVariable
  | missingRequired
  deriving DecidableEq, Repr

/-- Modelled from the spec: diagnostic severity. -/
inductive Severity where
  | error
  | warning
  deriving DecidableEq, Repr

/-- Modelled from the spec: a Diagnostic `{severity, subject (pack
alias, variable name), kind}`. -/
structure Diagnostic where
  severity : Severity
  packAlias : String
  varName : String
  kind : DiagKind
  deriving DecidableEq, Repr

/-- Modelled from the spec: `Diagnostics.HasErrors()` — whether any
accumulated diagnostic has error severity. -/
def hasErrors (diags : List Diagnostic) : Bool :=
  diags.any (fun d => d.severity == Severity.error)

/-- Whether some source in the list is qualified to exactly this pack
alias and variable name ("a more specific, pack-qualified source for
the same name also exists"). -/
def hasQualified (srcs : List VariableSource) (packAlias varName : String) : Bool :=
  srcs.any (fun s =>
    match s.target with
    | .qualified a n => a == packAlias && n == varName
    | .bare _ => false)

/-- Modelled from the spec: whether one source matches the spec for
pack `packAlias`, variable `varName`, in the presence of the whole
source list: a qualified source matches on alias and name; a bare
source matches on name *unless* a qualified source for the same
(alias, name) exists ("qualification always wins regardless of source
kind"). -/
def sourceMatches (srcs : List VariableSource) (src : VariableSource)
    (packAlias varName : String) : Bool :=
  match src.target with
  | .qualified a n => a == packAlias && n == varName
  | .bare n => n == varName && !hasQualified srcs packAlias varName

/-- Modelled from the spec: order the sources by "strictly increasing
precedence order"; sources of equal rank keep their supplied order
(the spec's recommended "last one supplied wins" tie-break). -/
def sortedByRank (srcs : List VariableSource) : List VariableSource :=
  srcs.filter (fun s => s.kind.rank == 1)
    ++ srcs.filter (fun s => s.kind.rank == 2)
    ++ srcs.filter (fun s => s.kind.rank == 3)
    ++ srcs.filter (fun s => s.kind.rank == 4)

/-- The running per-variable state during resolution: the current
value ("unset" = `none`), the governing type once known, and the
accumulated diagnostics. -/
structure ResolutionState where
  value : Option Value
  ty : Option Ty
  diags : List Diagnostic
  deriving DecidableEq, Repr

/-- Modelled from the spec: apply one matching override (§4.4 steps 2
and 3): if a governing type is known, an incompatible value produces a
`TypeMismatch` diagnostic and is discarded (the value falls back to
the previous stage), a compatible value overwrites; if no governing
type is known yet, the type is inferred permissively from this first
assigned value. -/
def applySource (packAlias varName : String) (st : ResolutionState)
    (src : VariableSource) : ResolutionState :=
  match st.ty with
  | some t =>
    if compatible t src.value.ty then
      { st with value := some src.value }
    else
      { st with diags := st.diags ++ [⟨.error, packAlias, varName, .typeMismatch⟩] }
  | none =>
    { value := some src.value, ty := some src.value.ty, diags := st.diags }

/-- Modelled from the spec: the starting state for one spec (§4.4 step
1): the default value or "unset"; the governing type is the declared
type, else inferred from the default when present. -/
def initState (s : VariableSpec) : ResolutionState :=
  { value := s.defaultValue,
    ty := match s.declaredType with
          | some t => some t
          | none => s.defaultValue.map Value.ty,
    diags := [] }

/-- Modelled from the spec: resolve one VariableSpec (§4.4 steps 1-4):
apply every matching source in strictly increasing precedence order,
then, if still unset, emit `MissingRequired` — as an error, or as a
warning when `ignoreMissing` is set (the variable stays absent from
the result). -/
def resolveSpec (srcs : List VariableSource) (ignoreMissing : Bool)
    (s : VariableSpec) : Option Value × List Diagnostic :=
  let matching := (sortedByRank srcs).filter
    (fun src => sourceMatches srcs src s.owningPackAlias s.name)
  let st := matching.foldl (applySource s.owningPackAlias s.name) (initState s)
  match st.value with
  | some v => (some v, st.diags)
  | none =>
    (none, st.diags ++
      [⟨if ignoreMissing then .warning else .error, s.owningPackAlias, s.name,
        .missingRequired⟩])

/-- Whether a source names (targets) a given spec, ignoring
qualification shadowing — used for the `UnknownVariable` check. -/
def sourceNamesSpec (src : VariableSource) (s : VariableSpec) : Bool :=
  match src.target with
  | .qualified a n => a == s.owningPackAlias && n == s.name
  | .bare n => n == s.name

/-- The variable name a target path names. -/
def TargetPath.targetVarName : TargetPath → String
  | .bare n => n
  | .qualified _ n => n

/-- The pack alias a target path names (empty for a bare name). -/
def TargetPath.targetAlias : TargetPath → String
  | .bare _ => ""
  | .qualified a _ => a

/-- Modelled from the spec (§4.4 step 5): a source naming a variable
that matches no VariableSpec anywhere in the tree produces an
`UnknownVariable` warning. -/
def unknownDiags (specs : List VariableSpec) (srcs : List VariableSource) :
    List Diagnostic :=
  (srcs.filter (fun src => !specs.any (sourceNamesSpec src))).map
    (fun src =>
      ⟨.warning, src.target.targetAlias, src.target.targetVarName, .unknownVariable⟩)

/-- Modelled from the spec: the Variable Resolution Engine over the
list of VariableSpecs reachable in the pack tree, producing the
ResolvedVariableSet (pack alias and variable name mapped to the final
value, in visiting order, absentees omitted) and the accumulated
Diagnostics. -/
def resolve (specs : List VariableSpec) (srcs : List VariableSource)
    (ignoreMissing : Bool) :
    List ((String × String) × Value) × List Diagnostic :=
  let per := specs.map (fun s => (s, resolveSpec srcs ignoreMissing s))
  let resolved := per.foldr
    (fun p acc =>
      match p.2.1 with
      | some v => ((p.1.owningPackAlias, p.1.name), v) :: acc
      | none => acc) []
  (resolved, per.flatMap (fun p => p.2.2) ++ unknownDiags specs srcs)

/-- Modelled from the spec: a variable declaration local to one pack
(name, optional declared type, optional default). -/
structure LocalSpec where
  name : String
  declaredType : Option Ty
  defaultValue : Option Value
  deriving DecidableEq, Repr

/-- Modelled from the spec: a Pack — its alias, its variable
declarations and its child packs (a tree). -/
inductive Pack where
  | node (packAlias : String) (specs : List LocalSpec) (children : List Pack)

mutual

/-- Every VariableSpec reachable in the tree, each scoped under its
owning pack's alias, in tree (pre-)order. -/
def Pack.allSpecs : Pack → List VariableSpec
  | .node a specs children =>
    specs.map (fun s => ⟨s.name, a, s.declaredType, s.defaultValue⟩)
      ++ Pack.allSpecsList children

/-- `Pack.allSpecs` over a list of sibling packs. -/
def Pack.allSpecsList : List Pack → List VariableSpec
  | [] => []
  | p :: ps => Pack.allSpecs p ++ Pack.allSpecsList ps

end

/-- Modelled from the spec: `Resolver.Resolve()` over a loaded Pack
tree — resolution visits every VariableSpec reachable in the tree. -/
def resolveTree (p : Pack) (srcs : List VariableSource) (ignoreMissing : Bool) :
    List ((String × String) × Value) × List Diagnostic :=
  resolve (Pack.allSpecs p) srcs ignoreMissing

/-- The diagnostics gate of `InfoCommand.Run` (info.go lines 63-67):
after resolution, the command fails (returns 1) exactly when the
accumulated diagnostics contain an error; otherwise it proceeds to
render and returns 0. -/
def infoDiagsGate (diags : List Diagnostic) : Int :=
  if hasErrors diags then 1 else 0

/-! ## Claim theorems -/

/-- C6: a VariableSpec is classified as required exactly when its
default is null, and as optional otherwise; the info command's
classification agrees with the spec's rule "a spec with no default is
required". -/
theorem info_required_iff_no_default (v : Variable) :
    (infoClassification v = "required" ↔ specRequired v = true)
    ∧ (infoClassification v = "optional" ↔ specRequired v = false) := by
  by_cases h : v.default.isNull <;>
    simp [infoClassification, specRequired, h]

/-- C7: the type reported by the info command is the declared type's
friendly name when a type is declared, otherwise the friendly name of
the default value's runtime type when a non-null default exists,
otherwise "unknown". -/
theorem info_var_type_cases (v : Variable) :
    (v.type ≠ CtyType.nil → varTypeString v = v.type.friendlyName)
    ∧ (v.type = CtyType.nil → v.default.isNull = false →
        varTypeString v = v.default.type.friendlyName)
    ∧ (v.type = CtyType.nil → v.default.isNull = true →
        varTypeString v = "unknown") := by
  refine ⟨fun h => ?_, fun h h' => ?_, fun h h' => ?_⟩ <;>
    simp [varTypeString, h, *]

/-- Witness for C7: all three branches at concrete variables. -/
theorem info_var_type_cases_witness :
    varTypeString ⟨"a", CtyType.string, ⟨CtyType.number, true⟩, ""⟩ = "string"
    ∧ varTypeString ⟨"b", CtyType.nil, ⟨CtyType.number, false⟩, ""⟩ = "number"
    ∧ varTypeString ⟨"c", CtyType.nil, ⟨CtyType.number, true⟩, ""⟩ = "unknown" :=
  ⟨by simpa using
      (info_var_type_cases ⟨"a", CtyType.string, ⟨CtyType.number, true⟩, ""⟩).1
        (by simp),
   by simpa using
      (info_var_type_cases ⟨"b", CtyType.nil, ⟨CtyType.number, false⟩, ""⟩).2.1
        rfl rfl,
   (info_var_type_cases ⟨"c", CtyType.nil, ⟨CtyType.number, true⟩, ""⟩).2.2
     rfl rfl⟩

/-- C8: the rows printed for one pack list every required variable
first and every optional variable after, each group in the original
iteration order. -/
theorem info_rows_required_first (vars : List Variable) :
    infoVariableRows vars
    = (vars.filter (fun v => specRequired v)).map requiredRow
      ++ (vars.filter (fun v => !specRequired v)).map optionalRow := by
  simp [infoVariableRows, collectRows_eq, specRequired]

/-- C9: status argument validation fails exactly when more than one
positional argument is supplied or the `--name` deployment flag is set
without a pack name argument; otherwise it succeeds. -/
theorem validate_status_args_ok_iff (b : BaseCommand) (args : List String) :
    (validateStatusArgs b args = .ok ()
      ↔ args.length ≤ 1 ∧ (b.deploymentName = "" ∨ args ≠ []))
    ∧ (¬ (args.length ≤ 1 ∧ (b.deploymentName = "" ∨ args ≠ [])) →
        ∃ msg, validateStatusArgs b args = .error msg) := by
  unfold validateStatusArgs
  match args with
  | [] =>
    by_cases hd : b.deploymentName = "" <;> simp [hd]
  | [a] =>
    simp
  | a :: a2 :: rest =>
    simp [Nat.succ_le_succ]

/-- Witness for C9: `--name` set with no pack name argument is
rejected. -/
theorem validate_status_args_ok_iff_witness :
    ∃ msg, validateStatusArgs ⟨"dev"⟩ [] = .error msg :=
  (validate_status_args_ok_iff ⟨"dev"⟩ []).2 (by simp)

/-- C10: when the deployed-job query succeeds with zero matching jobs,
the status command emits a single warning — naming the deployment when
one was given — and exits 0. -/
theorem status_no_jobs_warns (c : StatusState) (jobErrs : List JobStatusError) :
    ∃ msg,
      renderDeployedPackJobs c (.ok ([], jobErrs)) = (0, [.warning msg])
      ∧ (c.deploymentName ≠ "" →
          msg = "no jobs found for pack \"" ++ c.packName ++ "\""
            ++ " in deployment \"" ++ c.deploymentName ++ "\"")
      ∧ (c.deploymentName = "" →
          msg = "no jobs found for pack \"" ++ c.packName ++ "\"") := by
  by_cases h : c.deploymentName = ""
  · exact ⟨_, by simp [renderDeployedPackJobs, h], fun h' => absurd h h', fun _ => rfl⟩
  · exact ⟨_, by simp [renderDeployedPackJobs, h], fun _ => rfl, fun h' => absurd h' h⟩

/-- Witness for C10: both the with-deployment and without-deployment
messages at concrete states. -/
theorem status_no_jobs_warns_witness :
    (∃ msg,
      renderDeployedPackJobs ⟨"example", "dev"⟩ (.ok ([], [])) = (0, [.warning msg])
      ∧ msg = "no jobs found for pack \"example\" in deployment \"dev\"")
    ∧ (∃ msg,
      renderDeployedPackJobs ⟨"example", ""⟩ (.ok ([], [])) = (0, [.warning msg])
      ∧ msg = "no jobs found for pack \"example\"") := by
  constructor
  · obtain ⟨msg, h1, h2, _⟩ := status_no_jobs_warns ⟨"example", "dev"⟩ []
    exact ⟨msg, h1, by rw [h2 (by decide)]; decide⟩
  · obtain ⟨msg, h1, _, h3⟩ := status_no_jobs_warns ⟨"example", ""⟩ []
    exact ⟨msg, h1, h3 rfl⟩

/-- An optional override of the given kind for the bare name `n`
carrying a string value. -/
def optSource (k : SourceKind) (n : String) : Option String → List VariableSource
  | none => []
  | some v => [⟨k, .bare n, .str v⟩]

/-- C1: sources are applied in strictly increasing precedence order
(shared file < per-pack file < environment < command line, above the
pack default), each present source overwriting the previous value.
The sources are supplied in *decreasing* precedence order here, so the
outcome is forced by the ranks, not the list order; taking only the
shared-file and command-line sources present gives the spec's example
(default "a", shared "b", command line "c" resolves to "c"). -/
theorem resolve_precedence (a n d : String)
    (shared perPack env cli : Option String) :
    resolve [⟨n, a, none, some (.str d)⟩]
      (optSource .cliAssignment n cli ++ optSource .envVar n env
        ++ optSource .perPackFile n perPack ++ optSource .sharedFile n shared)
      false
    = ([((a, n), .str (cli.getD (env.getD (perPack.getD (shared.getD d)))))], []) := by
  rcases shared with _ | s <;> rcases perPack with _ | pp <;>
    rcases env with _ | e <;> rcases cli with _ | cl <;>
    simp [resolve, resolveSpec, sortedByRank, sourceMatches, hasQualified,
      applySource, initState, optSource, unknownDiags, sourceNamesSpec,
      compatible, SourceKind.rank, Value.ty]

/-- C2: with a bare override `x=1` (even at the highest-precedence
kind, a command-line assignment) and a pack-qualified override
`child.x=2` (at a lower-precedence kind, a shared file), pack `child`
resolves `x` to `2` — qualification wins regardless of kind — while
every other pack declaring `x` resolves it to `1`. -/
theorem resolve_qualified_wins (childA other n : String) (h : other ≠ childA) :
    resolve [⟨n, childA, none, none⟩, ⟨n, other, none, none⟩]
      [⟨.cliAssignment, .bare n, .num 1⟩, ⟨.sharedFile, .qualified childA n, .num 2⟩]
      false
    = ([((childA, n), .num 2), ((other, n), .num 1)], []) := by
  simp [resolve, resolveSpec, sortedByRank, sourceMatches, hasQualified,
    applySource, initState, unknownDiags, sourceNamesSpec, compatible,
    SourceKind.rank, Value.ty, Ne.symm h]

/-- Witness for C2 at concrete pack aliases. -/
theorem resolve_qualified_wins_witness :
    resolve [⟨"x", "child", none, none⟩, ⟨"x", "web", none, none⟩]
      [⟨.cliAssignment, .bare "x", .num 1⟩,
       ⟨.sharedFile, .qualified "child" "x", .num 2⟩]
      false
    = ([(("child", "x"), .num 2), (("web", "x"), .num 1)], []) :=
  resolve_qualified_wins "child" "web" "x" (by decide)

/-- Every element of `sortedByRank srcs` comes from `srcs`. -/
theorem mem_sortedByRank {src : VariableSource} {srcs : List VariableSource}
    (h : src ∈ sortedByRank srcs) : src ∈ srcs := by
  simp only [sortedByRank, List.mem_append, List.mem_filter] at h
  tauto

/-- A source that does not name a spec does not match it either. -/
theorem not_names_not_matches {src : VariableSource} {srcs : List VariableSource}
    {a n : String} {t : Option Ty} {d : Option Value}
    (h : sourceNamesSpec src ⟨n, a, t, d⟩ = false) :
    sourceMatches srcs src a n = false := by
  cases src with
  | mk k tgt v =>
    cases tgt <;> simp [sourceNamesSpec, sourceMatches] at h ⊢ <;> tauto

/-- `hasErrors` distributes over append. -/
theorem hasErrors_append (l1 l2 : List Diagnostic) :
    hasErrors (l1 ++ l2) = (hasErrors l1 || hasErrors l2) := by
  simp [hasErrors]

/-- `UnknownVariable` diagnostics are warnings, never errors. -/
theorem unknownDiags_no_errors (specs : List VariableSpec)
    (srcs : List VariableSource) :
    hasErrors (unknownDiags specs srcs) = false := by
  simp only [hasErrors, unknownDiags, List.any_eq_false, List.mem_map,
    List.mem_filter]
  rintro d ⟨src, _, rfl⟩
  simp

/-- C3: a spec without a default for which no source supplies a value
yields a `MissingRequired` diagnostic — an error making `HasErrors()`
true, unless `ignoreMissing` is set, in which case it is a warning,
`HasErrors()` is false, and the variable is absent from the result
(the result set is empty). -/
theorem missing_required_fails (a n : String) (ign : Bool)
    (srcs : List VariableSource)
    (h : ∀ src ∈ srcs, sourceNamesSpec src ⟨n, a, none, none⟩ = false) :
    (resolve [⟨n, a, none, none⟩] srcs ign).1 = []
    ∧ (⟨if ign then Severity.warning else Severity.error, a, n,
        DiagKind.missingRequired⟩ : Diagnostic)
        ∈ (resolve [⟨n, a, none, none⟩] srcs ign).2
    ∧ hasErrors (resolve [⟨n, a, none, none⟩] srcs ign).2 = !ign := by
  have hm : (sortedByRank srcs).filter (fun src => sourceMatches srcs src a n)
      = [] := by
    rw [List.filter_eq_nil_iff]
    intro src hsrc
    simp [not_names_not_matches (h src (mem_sortedByRank hsrc))]
  have hr : resolveSpec srcs ign ⟨n, a, none, none⟩
      = (none, [⟨if ign then Severity.warning else Severity.error, a, n,
          DiagKind.missingRequired⟩]) := by
    simp [resolveSpec, initState, hm]
  have hres : resolve [⟨n, a, none, none⟩] srcs ign
      = ([], [⟨if ign then Severity.warning else Severity.error, a, n,
          DiagKind.missingRequired⟩] ++ unknownDiags [⟨n, a, none, none⟩] srcs) := by
    simp [resolve, hr]
  refine ⟨by rw [hres], by rw [hres]; simp, ?_⟩
  rw [hres, hasErrors_append, unknownDiags_no_errors]
  cases ign <;> simp [hasErrors]

/-- Witness for C3: a required spec with a single non-matching source,
with `ignoreMissing` off. -/
theorem missing_required_fails_witness :
    (resolve [⟨"x", "root", none, none⟩]
        [⟨.cliAssignment, .bare "y", .str "v"⟩] false).1 = []
    ∧ (⟨Severity.error, "root", "x", DiagKind.missingRequired⟩ : Diagnostic)
        ∈ (resolve [⟨"x", "root", none, none⟩]
            [⟨.cliAssignment, .bare "y", .str "v"⟩] false).2
    ∧ hasErrors (resolve [⟨"x", "root", none, none⟩]
        [⟨.cliAssignment, .bare "y", .str "v"⟩] false).2 = true := by
  simpa using missing_required_fails "root" "x" false
    [⟨.cliAssignment, .bare "y", .str "v"⟩] (by decide)

/-- C4: resolution over a fixed Pack tree, a fixed ordered source list
and a fixed `ignoreMissing` flag is a pure function of those inputs —
running it twice yields identical resolved sets and diagnostics. -/
theorem resolve_deterministic (p : Pack) (srcs : List VariableSource)
    (ign : Bool) :
    resolveTree p srcs ign = resolveTree p srcs ign := rfl

/-- C5: only error-severity diagnostics decide the command outcome:
the info command's diagnostics gate fails exactly when `HasErrors()`
holds, and a warning-only diagnostics list leaves the command
successful. -/
theorem diags_gate_errors_only (diags : List Diagnostic) :
    (infoDiagsGate diags = 1 ↔ hasErrors diags = true)
    ∧ (infoDiagsGate diags = 0 ↔ hasErrors diags = false)
    ∧ ((∀ d ∈ diags, d.severity = Severity.warning) → infoDiagsGate diags = 0) := by
  refine ⟨?_, ?_, fun hw => ?_⟩
  · by_cases h : hasErrors diags <;> simp [infoDiagsGate, h]
  · by_cases h : hasErrors diags <;> simp [infoDiagsGate, h]
  · have h : hasErrors diags = false := by
      simp only [hasErrors, List.any_eq_false]
      intro d hd
      simp [hw d hd]
    simp [infoDiagsGate, h]

/-- Witness for C5: a warning-only diagnostics list gives exit 0. -/
theorem diags_gate_errors_only_witness :
    infoDiagsGate [⟨Severity.warning, "p", "x", DiagKind.unknownVariable⟩] = 0 :=
  (diags_gate_errors_only
    [⟨Severity.warning, "p", "x", DiagKind.unknownVariable⟩]).2.2 (by decide)

end NomadPack
